import Mathlib

set_option maxRecDepth 100000

/-!
Verification of the website-generation backend's workflow engine, plan
parser, image pipeline and update subsystem, as implemented in
`app/workflow_nodes.py`, `app/utils.py` and `app/dspy_modules.py`.

All external collaborators (the text-generation and image-generation
gateways, the file manager, Python's `json.loads` and the one `re.search`
call whose pattern feeds the plan-recovery ladder) are modelled as
explicit environment parameters; everything the repository itself
computes is translated directly from the Python source.
-/

/-- A JSON value, as produced by Python's `json` module.  Objects are kept
as association lists in insertion order, mirroring Python dicts. -/
inductive Json where
  | null : Json
  | bool (b : Bool) : Json
  | num (n : Int) : Json
  | str (s : String) : Json
  | arr (xs : List Json) : Json
  | obj (fields : List (String × Json)) : Json

mutual
/-- Structural equality of JSON values (Python `==` on parsed JSON). -/
def Json.beq : Json → Json → Bool
  | .null, .null => true
  | .bool a, .bool b => a = b
  | .num a, .num b => a = b
  | .str a, .str b => a = b
  | .arr xs, .arr ys => Json.beqList xs ys
  | .obj fs, .obj gs => Json.beqObj fs gs
  | _, _ => false

def Json.beqList : List Json → List Json → Bool
  | [], [] => true
  | x :: xs, y :: ys => Json.beq x y && Json.beqList xs ys
  | _, _ => false

def Json.beqObj : List (String × Json) → List (String × Json) → Bool
  | [], [] => true
  | (k, v) :: fs, (l, w) :: gs => k = l && Json.beq v w && Json.beqObj fs gs
  | _, _ => false
end

instance : BEq Json := ⟨Json.beq⟩

/-- Python truthiness of a JSON value (`if value:`). -/
def Json.truthy : Json → Bool
  | .null => false
  | .bool b => b
  | .num n => n != 0
  | .str s => s ≠ ""
  | .arr xs => ¬xs.isEmpty
  | .obj fs => ¬fs.isEmpty

mutual
/-- `json.dumps` with the default separators, as used by the workflow
nodes to re-serialize plans.  The dumped text only feeds the opaque
gateway prompts, so string escaping is not modelled. -/
def Json.dumps : Json → String
  | .null => "null"
  | .bool true => "true"
  | .bool false => "false"
  | .num n => toString n
  | .str s => "\"" ++ s ++ "\""
  | .arr xs => "[" ++ Json.dumpsList xs ++ "]"
  | .obj fs => "\x7b" ++ Json.dumpsObj fs ++ "\x7d"

def Json.dumpsList : List Json → String
  | [] => ""
  | [x] => Json.dumps x
  | x :: xs => Json.dumps x ++ ", " ++ Json.dumpsList xs

def Json.dumpsObj : List (String × Json) → String
  | [] => ""
  | [(k, v)] => "\"" ++ k ++ "\": " ++ Json.dumps v
  | (k, v) :: fs => "\"" ++ k ++ "\": " ++ Json.dumps v ++ ", " ++ Json.dumpsObj fs
end

/-- Membership lookup in a JSON object (`"k" in d` / `d.get("k")`),
first occurrence; dicts built by `json.loads` have unique keys. -/
def Json.lookupKey : Json → String → Option Json
  | .obj fs, k => fs.lookup k
  | _, _ => none

/-- Python `str.lower()` (ASCII case folding, via `Char.toLower`). -/
def pyLower (s : String) : String := String.mk (s.toList.map Char.toLower)

/-- Worker for `pySplit`: split on the (non-empty) separator at every
non-overlapping leftmost occurrence.  The fuel is the input length plus
one; every step consumes at least one character, so it never runs out. -/
def splitOnCharsAux (sep : List Char) : Nat → List Char → List Char → List (List Char)
  | 0, acc, l => [acc.reverse ++ l]
  | _ + 1, acc, [] => [acc.reverse]
  | fuel + 1, acc, c :: cs =>
    if List.isPrefixOf sep (c :: cs) then
      acc.reverse :: splitOnCharsAux sep fuel [] (List.drop sep.length (c :: cs))
    else splitOnCharsAux sep fuel (c :: acc) cs

/-- Python `s.split(sep)` for a non-empty separator. -/
def pySplit (s sep : String) : List String :=
  (splitOnCharsAux sep.toList (s.toList.length + 1) [] s.toList).map String.mk

/-- Python `s.strip()`: remove leading and trailing whitespace. -/
def pyStrip (s : String) : String :=
  String.mk (((s.toList.dropWhile Char.isWhitespace).reverse.dropWhile Char.isWhitespace).reverse)

/-- Worker for `pySplitWs`. -/
def wordsAux : List Char → List Char → List (List Char)
  | [], cur => if cur.isEmpty then [] else [cur.reverse]
  | c :: cs, cur =>
    if c.isWhitespace then
      if cur.isEmpty then wordsAux cs [] else cur.reverse :: wordsAux cs []
    else wordsAux cs (c :: cur)

/-- Python `s[:n]` on strings. -/
def pyTake (s : String) (n : Nat) : String := String.mk (s.toList.take n)

/-- Python `s[n:]` on strings. -/
def pyDrop (s : String) (n : Nat) : String := String.mk (s.toList.drop n)

/-- Python `s[:-n]` on strings. -/
def pyDropRight (s : String) (n : Nat) : String :=
  String.mk ((s.toList.reverse.drop n).reverse)

/-- Python `s.startswith(pat)`. -/
def pyStartsWith (s pat : String) : Bool := List.isPrefixOf pat.toList s.toList

/-- Python `s.endswith(pat)`. -/
def pyEndsWith (s pat : String) : Bool :=
  List.isPrefixOf pat.toList.reverse s.toList.reverse

/-- Python's `sub in s` substring test (for non-empty `sub`):
`s.split(sub)` has more than one part exactly when `sub` occurs in `s`. -/
def strContains (s sub : String) : Bool := (pySplit s sub).length > 1

/-- Python `str.split()` with no argument: split on whitespace runs,
discarding empty fields. -/
def pySplitWs (s : String) : List String := (wordsAux s.toList []).map String.mk

/-- Python dict assignment `d[k] = v` on an insertion-ordered dict:
update in place if the key exists, else append. -/
def assocSet {α : Type} (l : List (String × α)) (k : String) (v : α) :
    List (String × α) :=
  if l.any (fun kv => kv.1 = k) then
    l.map (fun kv => if kv.1 = k then (k, v) else kv)
  else l ++ [(k, v)]

/-- Python `str(v)` used when a JSON value that is not a string is fed
into a prompt or a filename; for strings it is the string itself, for
anything else the JSON rendering stands in for Python's `str`. -/
def pyStr : Json → String
  | .str s => s
  | v => Json.dumps v

/-! ## The style-tag regex

`app/workflow_nodes.py` (`extract_css_theme_from_template`) and
`app/dspy_modules.py` (`WebsiteUpdater._extract_css` and the global-CSS
update step) all use `re.findall` / `re.sub` with the pattern
`<style[^>]*>(.*?)</style>` under `DOTALL | IGNORECASE`.  The scanner
below implements that exact pattern: at each position try to match the
literal `<style` case-insensitively, then any run of characters other
than `>` followed by `>`, then lazily capture up to the first
case-insensitive `</style>`. -/

/-- Case-insensitive literal match; returns the rest of the input after
the pattern. -/
def matchCI : List Char → List Char → Option (List Char)
  | [], rest => some rest
  | _, [] => none
  | p :: ps, c :: cs => if p.toLower = c.toLower then matchCI ps cs else none

/-- `[^>]*>`: consume up to and including the first `>`. -/
def scanToGt : List Char → Option (List Char)
  | [] => none
  | c :: cs => if c = '>' then some cs else scanToGt cs

/-- Lazy `(.*?)</style>` (DOTALL, IGNORECASE): the capture up to the
first closing tag, and the input after it. -/
def captureToClose : List Char → Option (List Char × List Char)
  | [] => none
  | c :: cs =>
    match matchCI "</style>".toList (c :: cs) with
    | some rest => some ([], rest)
    | none =>
      match captureToClose cs with
      | some (cap, rest) => some (c :: cap, rest)
      | none => none

/-- Try to match `<style[^>]*>(.*?)</style>` at the current position. -/
def tryStyleMatch (l : List Char) : Option (String × List Char) := do
  let r1 ← matchCI "<style".toList l
  let r2 ← scanToGt r1
  let (cap, rest) ← captureToClose r2
  pure (String.mk cap, rest)

/-- Left-to-right scan collecting every non-overlapping match; returns
the input with the matches removed (for `re.sub`) and the list of
captures (for `re.findall`).  The fuel is the input length, which bounds
the number of scan steps since every step consumes at least one
character. -/
def styleScanAux : Nat → List Char → List Char × List String
  | 0, l => (l, [])
  | _ + 1, [] => ([], [])
  | fuel + 1, c :: cs =>
    match tryStyleMatch (c :: cs) with
    | some (cap, rest) =>
      let (out, caps) := styleScanAux fuel rest
      (out, cap :: caps)
    | none =>
      let (out, caps) := styleScanAux fuel cs
      (c :: out, caps)

/-- `re.findall(style_pattern, s, re.DOTALL | re.IGNORECASE)`. -/
def styleFindAll (s : String) : List String :=
  (styleScanAux s.toList.length s.toList).2

/-- `re.sub(style_pattern, '', s, flags=re.DOTALL | re.IGNORECASE)`. -/
def styleSubRemove (s : String) : String :=
  String.mk (styleScanAux s.toList.length s.toList).1

/-- `WebsiteUpdater._extract_css`: the HTML with the style blocks
removed, and the concatenated, stripped captures. -/
def extractCssFromHtml (s : String) : String × String :=
  (styleSubRemove s, pyStrip (String.intercalate "\n\n" (styleFindAll s)))

/-! ## Workflow state (`app/workflow_state.py`)

The LangChain `messages` list is framework glue carrying no workflow
data and is not modelled. -/

/-- A generated page: `{html: str, css: str}` as built by the HTML
generation stage. -/
structure Page where
  html : String
  css : String
deriving DecidableEq

/-- `WorkflowState` from `app/workflow_state.py`: the single record
threaded through every stage. -/
structure WorkflowState where
  description : String
  template : Option String
  plan : Option Json
  plan_json : Option String
  template_styling : Option Json
  css_theme : Option String
  image_descriptions : Option (List (String × String))
  image_urls : Option (List (String × String))
  pages : Option (List (String × Page))
  folder_path : Option String
  saved_files : Option (List (String × String))
  current_step : String
  status : String
  error : Option String
  progress : Nat
  progress_message : String

/-! ## Planning stage (`planning_node`, `app/workflow_nodes.py` 34-205) -/

/-- External collaborators of the planning stage.  `jsonParse` is
Python's `json.loads` (`some` on success, `none` for a
`JSONDecodeError`); `regexSearchPages` is the strategy-3
`re.search(r'\{[^{}]*"pages"[^{}]*\}|\{.*"pages".*\}', text, re.DOTALL)`
call, returning the matched substring; `normalizeWs` is the
blank-line-collapsing `re.sub(r'\n\s*\n\s*\n+', '\n\n', css)` in
`extract_css_theme_from_template`; the other two are LLM gateway
calls that may fail. -/
structure PlanningEnv where
  templateAnalyzer : String → Except String Json
  normalizeWs : String → String
  plannerCall : String → Option Json → Except String String
  jsonParse : String → Option Json
  regexSearchPages : String → Option String

/-- `extract_css_theme_from_template`: join all `<style>` captures with
blank lines, strip, normalize whitespace; `None` when the template has
no style blocks. -/
def extract_css_theme_from_template (env : PlanningEnv) (t : String) :
    Option String :=
  match styleFindAll t with
  | [] => none
  | ms => some (env.normalizeWs (pyStrip (String.intercalate "\n\n" ms)))

/-- Template handling at the top of `planning_node`: only a template
that is non-empty after stripping is analyzed; any failure inside the
inner `try` (including the analyzer returning something without
`.keys()`, i.e. not a dict) resets both outputs to `None`. -/
def templateInfo (env : PlanningEnv) (st : WorkflowState) :
    Option Json × Option String :=
  match st.template with
  | none => (none, none)
  | some t =>
    if pyStrip t ≠ "" then
      match env.templateAnalyzer t with
      | .ok (Json.obj fs) =>
        (some (Json.obj fs), extract_css_theme_from_template env t)
      | .ok _ => (none, none)
      | .error _ => (none, none)
    else (none, none)

/-- Strategy 2 of the parse ladder: if the text contains a fenced
```json block take the part between the fence markers, else if it
contains any ``` fence take the first fenced part, else re-use the text
unchanged (lines 100-109). -/
def extractCodeBlock (s : String) : String :=
  if strContains s "```json" then
    pyStrip (((pySplit ((pySplit s "```json").getD 1 "") "```").getD 0 ""))
  else if strContains s "```" then
    pyStrip (((pySplit ((pySplit s "```").getD 1 "") "```").getD 0 ""))
  else s

/-- The synthetic fallback plan of strategy 4 (lines 126-141). -/
def defaultPlan : Json :=
  Json.obj
    [("pages", Json.arr
        [Json.obj [("name", Json.str "home"),
                   ("purpose", Json.str "Landing page"),
                   ("sections", Json.arr [Json.str "hero", Json.str "features", Json.str "cta"])],
         Json.obj [("name", Json.str "about"),
                   ("purpose", Json.str "About page"),
                   ("sections", Json.arr [Json.str "story", Json.str "team"])],
         Json.obj [("name", Json.str "contact"),
                   ("purpose", Json.str "Contact page"),
                   ("sections", Json.arr [Json.str "form", Json.str "info"])]]),
     ("styling", Json.obj
        [("theme", Json.str "modern"),
         ("primary_color", Json.str "#3B82F6"),
         ("secondary_color", Json.str "#64748B"),
         ("font_family", Json.str "sans-serif"),
         ("design_style", Json.str "clean and professional")]),
     ("image_sections", Json.arr [Json.str "hero", Json.str "features", Json.str "testimonials"]),
     ("navigation", Json.arr [Json.str "home", Json.str "about", Json.str "contact"])]

/-- The four-strategy JSON-recovery ladder of `planning_node` (lines
87-141): verbatim parse, fenced-code-block extraction, regex substring
search (run on the text as mutated by strategy 2), then the synthetic
default plan. -/
def planParse (env : PlanningEnv) (text : String) : Json :=
  match env.jsonParse text with
  | some p => p
  | none =>
    match env.jsonParse (extractCodeBlock text) with
    | some p => p
    | none =>
      match env.regexSearchPages (extractCodeBlock text) with
      | some m =>
        match env.jsonParse m with
        | some p => p
        | none => defaultPlan
      | none => defaultPlan

/-- Post-parse plan validation (lines 143-151): the result must be a
dict, contain a `pages` key holding a list, and that list must be
non-empty. -/
def validatePlanStruct (p : Json) : Except String Unit :=
  match p with
  | Json.obj fs =>
    match fs.lookup "pages" with
    | some (Json.arr l) =>
      if l.isEmpty then Except.error "Plan must contain at least one page"
      else Except.ok ()
    | some _ => Except.error "Plan must contain 'pages' array"
    | none => Except.error "Plan must contain 'pages' array"
  | _ => Except.error "Plan must be a dictionary"

/-- Number of planned pages, for the progress message
(`len(plan.get('pages', []))`). -/
def planPagesCount (p : Json) : Nat :=
  match p.lookupKey "pages" with
  | some (Json.arr l) => l.length
  | _ => 0

/-- The planner call followed by the parse ladder and validation; an
`error` is a caught exception of the stage body. -/
def planningResult (env : PlanningEnv) (st : WorkflowState)
    (ts : Option Json) : Except String Json :=
  match env.plannerCall st.description ts with
  | .error e => Except.error e
  | .ok raw =>
    match validatePlanStruct (planParse env raw) with
    | .error e => Except.error e
    | .ok _ => Except.ok (planParse env raw)

/-- `planning_node` (lines 34-178): on success advance to
`image_description` at progress 25; on any caught failure return the
terminal failed record with progress 0. -/
def planning_node (env : PlanningEnv) (st : WorkflowState) : WorkflowState :=
  match planningResult env st (templateInfo env st).1 with
  | .error e =>
    { st with current_step := "failed", status := "failed",
              error := some ("Planning failed: " ++ e), progress := 0,
              progress_message := "✗ Planning failed: " ++ e }
  | .ok plan =>
    { st with plan := some plan, plan_json := some (Json.dumps plan),
              template_styling := (templateInfo env st).1,
              css_theme := (templateInfo env st).2,
              current_step := "image_description", status := "in_progress",
              progress := 25,
              progress_message := "✓ Planning complete: " ++ toString (planPagesCount plan)
                ++ " pages planned"
                ++ (if (templateInfo env st).1.isSome then ", template styling applied"
                    else "") }

/-! ## Image description stage (`image_description_node`, lines 208-306) -/

/-- The image-description gateway call: plan JSON, section name, page
name, business description. -/
structure ImageDescEnv where
  genDescription : String → String → String → String → Except String String

/-- The canned per-section fallback descriptions (lines 264-268). -/
def fallbackDescriptions : List (String × String) :=
  [("hero", "Professional business hero banner with modern design, clean layout, and welcoming atmosphere"),
   ("features", "Clean feature section with minimalist icons and professional presentation"),
   ("testimonials", "Professional testimonial section with friendly atmosphere and trust-building design")]

/-- `fallback_descriptions.get(section, f"Professional {section} section
with modern, clean design")`. -/
def fallbackDescriptionFor (sect : String) : String :=
  (fallbackDescriptions.lookup sect).getD
    ("Professional " ++ sect ++ " section with modern, clean design")

/-- `plan.get("pages", [])` as iterated by the section-to-page loop: a
missing key defaults to the empty list; a non-dict plan or a `pages`
value whose elements cannot be treated as dicts raises (and the raise is
only caught by the stage's outer handler). -/
def pagesListOf (plan : Json) : Except String (List Json) :=
  match plan with
  | Json.obj fs =>
    match fs.lookup "pages" with
    | none => Except.ok []
    | some (Json.arr l) => Except.ok l
    | some _ => Except.error "pages value is not a list of page dicts"
  | _ => Except.error "plan has no attribute get"

/-- The loop of lines 242-247: the first plan page whose `sections`
contain the section gives the page name, defaulting to `home`.  A page
that is not a dict, a `sections` value that is not iterable, or a
matching page without a `name` key raises out of the stage body.  A
string-valued `sections` is searched as a substring, matching Python's
`in`; a non-string `name` is coerced the way Python would stringify it
into the prompt. -/
def findPageForSection (pages : List Json) (sect : String) :
    Except String String :=
  match pages with
  | [] => Except.ok "home"
  | pg :: rest =>
    match pg with
    | Json.obj fs =>
      match fs.lookup "sections" with
      | none => findPageForSection rest sect
      | some (Json.arr l) =>
        if l.contains (Json.str sect) then
          match fs.lookup "name" with
          | some v => Except.ok (pyStr v)
          | none => Except.error "KeyError: name"
        else findPageForSection rest sect
      | some (Json.str s) =>
        if strContains s sect then
          match fs.lookup "name" with
          | some v => Except.ok (pyStr v)
          | none => Except.error "KeyError: name"
        else findPageForSection rest sect
      | some _ => Except.error "TypeError: sections is not iterable"
    | _ => Except.error "page has no attribute get"

/-- One per-section description with the caught-exception fallback
(`generate_description_safe` plus the result-processing loop of lines
270-282). -/
def descriptionOrFallback (env : ImageDescEnv) (planStr sect pageName desc : String) :
    String :=
  match env.genDescription planStr sect pageName desc with
  | .ok d => d
  | .error _ => fallbackDescriptionFor sect

/-- The stage body up to the state update: determine the owning page of
each of the three fixed sections (failures here escape to the outer
handler), then produce a description or a canned fallback per section. -/
def buildImageDescriptions (env : ImageDescEnv) (st : WorkflowState) :
    Except String (List (String × String)) :=
  match st.plan with
  | none => Except.error "plan is None"
  | some plan =>
    match pagesListOf plan with
    | .error e => Except.error e
    | .ok pages =>
      match findPageForSection pages "hero" with
      | .error e => Except.error e
      | .ok p1 =>
        match findPageForSection pages "features" with
        | .error e => Except.error e
        | .ok p2 =>
          match findPageForSection pages "testimonials" with
          | .error e => Except.error e
          | .ok p3 =>
            Except.ok
              [("hero", descriptionOrFallback env (Json.dumps plan) "hero" p1 st.description),
               ("features", descriptionOrFallback env (Json.dumps plan) "features" p2 st.description),
               ("testimonials", descriptionOrFallback env (Json.dumps plan) "testimonials" p3 st.description)]

/-- `image_description_node`: the three sections are the fixed list
`["hero", "features", "testimonials"]` (line 218), not read from the
plan.  On success advance to `image_generation` at progress 40 (the
success dict does not touch `status`); a catastrophic error fails the
workflow at progress 25. -/
def image_description_node (env : ImageDescEnv) (st : WorkflowState) :
    WorkflowState :=
  match buildImageDescriptions env st with
  | .ok descs =>
    { st with image_descriptions := some descs,
              current_step := "image_generation", progress := 40,
              progress_message := "✓ Image descriptions ready for "
                ++ toString descs.length ++ " sections" }
  | .error e =>
    { st with current_step := "failed", status := "failed",
              error := some ("Image description generation failed: " ++ e),
              progress := 25,
              progress_message := "✗ Image description failed: " ++ e }

/-! ## Image generation stage (`image_generation_node`, lines 310-390) -/

/-- The DALL-E pipeline call (`call_dalle` in `app/utils.py`): section,
prompt, size, quality; returns the local `/uploads/...` URL or fails.
`baseUrl` is the `BASE_URL` environment variable. -/
structure ImageGenEnv where
  baseUrl : String
  callDalle : String → String → String → String → Except String String

/-- The static fallback image map (lines 325-329). -/
def staticImages : List (String × String) :=
  [("hero", "hero_1766668485.png"),
   ("features", "features_1766668478.png"),
   ("testimonials", "testimonials_1766668479.png")]

/-- One section's URL: the generated local URL prefixed with the base
URL on success, otherwise the static fallback
(`static_images.get(section, "placeholder.png")`) under `/uploads/`. -/
def sectionImageUrl (env : ImageGenEnv) (sect description : String) : String :=
  match env.callDalle sect description "1792x1024" "standard" with
  | .ok localUrl => env.baseUrl ++ localUrl
  | .error _ =>
    env.baseUrl ++ "/uploads/" ++ ((staticImages.lookup sect).getD "placeholder.png")

/-- The URL map built by the result-processing loop (lines 353-365):
one entry per image description, in order. -/
def sectionUrls (env : ImageGenEnv) (descs : List (String × String)) :
    List (String × String) :=
  descs.map (fun sd => (sd.1, sectionImageUrl env sd.1 sd.2))

/-- `image_generation_node`: per-description generation with the static
fallback; every exception of an individual call is absorbed
(`asyncio.gather(..., return_exceptions=True)`), so one entry is
produced per description.  Success advances to `html_generation` at
progress 65 without touching `status`; only a missing/None
`image_descriptions` fails the stage (progress 40). -/
def image_generation_node (env : ImageGenEnv) (st : WorkflowState) :
    WorkflowState :=
  match st.image_descriptions with
  | none =>
    { st with current_step := "failed", status := "failed",
              error := some "Image generation failed: image_descriptions is None",
              progress := 40,
              progress_message := "✗ Image generation failed: image_descriptions is None" }
  | some descs =>
    { st with image_urls := some (sectionUrls env descs),
              current_step := "html_generation",
              progress := 65,
              progress_message := "✓ " ++ toString (sectionUrls env descs).length
                ++ " images generated successfully" }

/-! ## HTML generation stage (`html_generation_node`, lines 393-552) -/

/-- The page-generation gateway call: page name, page config, the
formatted image-URL text and the business description.  The enhanced
plan with its navigation instructions and the optional template styling
only feed the opaque prompt of this call and are absorbed into it. -/
structure HtmlGenEnv where
  genHtml : String → Json → String → String → Except String String

/-- Markdown-fence cleanup of a generated page (lines 470-484):
strip, drop a leading ` ```html ` (7 characters) or ` ``` ` (3),
drop a trailing ` ``` `, strip again. -/
def cleanGeneratedHtml (s : String) : String :=
  let h := pyStrip s
  let h := if pyStartsWith h "```html" then pyDrop h 7
           else if pyStartsWith h "```" then pyDrop h 3
           else h
  let h := if pyEndsWith h "```" then pyDropRight h 3 else h
  pyStrip h

/-- First-`<style>`-block extraction of lines 514-517:
`html.split("<style>")[1].split("</style>")[0].strip()` when both tags
occur, else the empty string. -/
def firstStyleBlock (html : String) : String :=
  if strContains html "<style>" ∧ strContains html "</style>" then
    pyStrip ((pySplit ((pySplit html "<style>").getD 1 "") "</style>").getD 0 "")
  else ""

/-- Post-processing and validation of one generated page (lines
469-522): clean the fences, reject a response under 100 characters or
one that does not start with a doctype/html root, extract the first
embedded style block as the page CSS. -/
def processPageHtml (pageName raw : String) : Except String Page :=
  let html := cleanGeneratedHtml raw
  if html.length < 100 then
    Except.error ("HTML generation failed for " ++ pageName ++ ": Response too short or empty")
  else if ¬(pyStartsWith html "<!DOCTYPE" ∨ pyStartsWith html "<html") then
    Except.error ("HTML generation failed for " ++ pageName ++ ": Invalid HTML structure")
  else
    Except.ok ⟨html, firstStyleBlock html⟩

/-- `page["name"]` in the per-page loop: raises when the page is not a
dict or lacks the key; a non-string name is coerced as Python would
when used as a dict key and prompt input. -/
def pageNameKey (pg : Json) : Except String String :=
  match pg with
  | Json.obj fs =>
    match fs.lookup "name" with
    | some v => Except.ok (pyStr v)
    | none => Except.error "KeyError: name"
  | _ => Except.error "page is not a dict"

/-- The stage body: read plan and image URLs, format the URL text
(line 408), then generate, clean and validate each plan page in order;
the first per-page failure aborts the whole stage.  The page dict is
built by insertion-ordered assignment. -/
def buildPagesOutput (env : HtmlGenEnv) (st : WorkflowState) :
    Except String (List (String × Page)) := do
  let plan ← match st.plan with
    | some p => Except.ok p
    | none => Except.error "plan is None"
  let urls ← match st.image_urls with
    | some u => Except.ok u
    | none => Except.error "image_urls is None"
  let urlsText := String.intercalate "\n" (urls.map (fun su => su.1 ++ ": " ++ su.2))
  let pages ← pagesListOf plan
  let entries ← pages.mapM (fun pg => do
    let name ← pageNameKey pg
    let raw ← env.genHtml name pg urlsText st.description
    let page ← processPageHtml name raw
    Except.ok (name, page))
  Except.ok (entries.foldl (fun acc kv => assocSet acc kv.1 kv.2) [])

/-- `html_generation_node`: success hands off to `file_storage` at
progress 90 with `status` re-asserted as `in_progress`; any caught
failure is terminal at progress 65. -/
def html_generation_node (env : HtmlGenEnv) (st : WorkflowState) :
    WorkflowState :=
  match buildPagesOutput env st with
  | .ok out =>
    { st with pages := some out, current_step := "file_storage",
              status := "in_progress", progress := 90,
              progress_message := "✓ HTML generated for " ++ toString out.length
                ++ " pages, preparing to save files..." }
  | .error e =>
    { st with current_step := "failed", status := "failed",
              error := some ("HTML generation failed: " ++ e), progress := 65,
              progress_message := "✗ HTML generation failed: " ++ e }

/-! ## File storage stage (`file_storage_node`, lines 718-784) -/

/-- `WebsiteFileManager.save_complete_website`, an external
collaborator: takes pages, plan, description, website name, image URLs
and the CSS theme; returns the folder path and the saved-file map, or
fails. -/
structure StorageEnv where
  saveWebsite : List (String × Page) → Option Json → String → Option String →
    Option (List (String × String)) → Option String →
    Except String (String × List (String × String))

/-- The website-name heuristic of lines 732-738: `plan["name"]` when the
plan is truthy and contains the key (a plan that is not a dict either
raises at the subscript, modelled as the error cases, or falls through);
otherwise the first three whitespace-separated words of a non-empty
description joined by underscores; otherwise `None`. -/
def websiteNameE (st : WorkflowState) : Except String (Option String) :=
  let fromDescription : Option String :=
    if st.description ≠ "" then
      some (String.intercalate "_" ((pySplitWs st.description).take 3))
    else none
  match st.plan with
  | none => Except.ok fromDescription
  | some (Json.obj fs) =>
    if ¬fs.isEmpty ∧ (fs.lookup "name").isSome then
      Except.ok (some (pyStr ((fs.lookup "name").getD Json.null)))
    else Except.ok fromDescription
  | some (Json.str s) =>
    if s ≠ "" ∧ strContains s "name" then Except.error "TypeError: string indices"
    else Except.ok fromDescription
  | some (Json.arr l) =>
    if ¬l.isEmpty ∧ l.contains (Json.str "name") then Except.error "TypeError: list indices"
    else Except.ok fromDescription
  | some v =>
    if v.truthy then Except.error "TypeError: argument is not iterable"
    else Except.ok fromDescription

/-- `os.path.basename`, used only in the success progress message. -/
def pathBasename (p : String) : String := (pySplit p "/").getLastD p

/-- The body of `file_storage_node` up to the state update. -/
def storageAttempt (env : StorageEnv) (st : WorkflowState) :
    Except String (String × List (String × String)) :=
  match st.pages with
  | none => Except.error "pages is None"
  | some pages =>
    match websiteNameE st with
    | .error e => Except.error e
    | .ok wname =>
      env.saveWebsite pages st.plan st.description wname st.image_urls st.css_theme

/-- `file_storage_node` (lines 718-784): on success the terminal
completed record at progress 100.  The exception handler (lines
773-784) does NOT produce a failed state: it also returns
`current_step="complete"`, `status="completed"`, `progress=100`, with
the cause recorded in `error` as a "File storage warning". -/
def file_storage_node (env : StorageEnv) (st : WorkflowState) : WorkflowState :=
  match storageAttempt env st with
  | .ok fr =>
    { st with folder_path := some fr.1, saved_files := some fr.2,
              current_step := "complete", status := "completed", progress := 100,
              progress_message := "✓ Website generation complete: "
                ++ toString fr.2.length ++ " pages saved to " ++ pathBasename fr.1 }
  | .error e =>
    { st with current_step := "complete", status := "completed", progress := 100,
              progress_message := "✓ HTML generated but file storage failed: " ++ e,
              error := some ("File storage warning: " ++ e) }

/-! ## Image download verification (`download_and_save_image`,
`app/utils.py` 41-157) -/

/-- The known raster signatures of lines 88-93, checked in dict order:
PNG, JPEG, GIF87a, GIF89a; then the two-part WEBP check of line 101
(`RIFF` prefix and `WEBP` somewhere in the first 20 bytes). -/
def detectImageFormat (b : List Nat) : Option String :=
  if List.isPrefixOf [0x89, 0x50, 0x4E, 0x47, 0x0D, 0x0A, 0x1A, 0x0A] b then some "PNG"
  else if List.isPrefixOf [0xFF, 0xD8, 0xFF] b then some "JPEG"
  else if List.isPrefixOf [0x47, 0x49, 0x46, 0x38, 0x37, 0x61] b then some "GIF"
  else if List.isPrefixOf [0x47, 0x49, 0x46, 0x38, 0x39, 0x61] b then some "GIF"
  else if b.take 4 = [0x52, 0x49, 0x46, 0x46]
          ∧ (b.take 20).tails.any (fun t => List.isPrefixOf [0x57, 0x45, 0x42, 0x50] t)
        then some "WEBP"
  else none

/-- The acceptance decision of `download_and_save_image` on the
downloaded bytes (lines 73-107): reject empty content, reject content
over 10 MB, then detect the image format from the magic bytes — but an
unrecognized format only logs "Could not detect image format from magic
bytes, proceeding anyway..." and the bytes are accepted and written
regardless. -/
def download_and_save_image (b : List Nat) : Except String Unit :=
  if b.length = 0 then Except.error "Downloaded image is empty"
  else if b.length > 10 * 1024 * 1024 then Except.error "Image file too large (max 10MB)"
  else
    match detectImageFormat b with
    | some _ => Except.ok ()
    | none => Except.ok ()

/-! ## Update classifier + patch applier (`WebsiteUpdater.forward`,
`app/dspy_modules.py` 556-752) -/

/-- A page as supplied to the update endpoint: an arbitrary string dict,
so the `html` and `css` keys may each be absent (read through
`dict.get` with a default). -/
structure PageDict where
  htmlField : Option String
  cssField : Option String
deriving DecidableEq

/-- External collaborators of the updater: the analyzer LLM call
(edit request, available-pages text, CSS sample), `json.loads`, and the
`HTMLEditor` LLM call (html, css, edit request). -/
structure UpdaterEnv where
  analyzerCall : String → String → String → Except String String
  jsonParse : String → Option Json
  htmlEditor : String → String → String → Except String String

/-- The value returned by `WebsiteUpdater.forward`. -/
structure UpdateResult where
  updated_pages : List (String × Page)
  updated_global_css : Option String
  changes_summary : String
  analysis : Json

/-- The styling keyword list of line 610. -/
def globalStyleKeywords : List String :=
  ["color", "font", "theme", "all pages", "everywhere", "global", "button", "spacing"]

/-- `is_global`: some styling keyword occurs in the lowercased request. -/
def hasGlobalKeyword (req : String) : Bool :=
  globalStyleKeywords.any (fun k => strContains (pyLower req) k)

/-- The page names (as given, not lowercased) occurring literally in the
lowercased request. -/
def matchedPageNames (available : List String) (req : String) : List String :=
  available.filter (fun p => strContains (pyLower req) p)

/-- `page_specific`: some available page name occurs in the lowercased
request. -/
def hasPageName (available : List String) (req : String) : Bool :=
  available.any (fun p => strContains (pyLower req) p)

/-- Build an UpdateAnalysis dict in the shape the fallbacks construct. -/
def mkAnalysis (t : String) (targets : List String) (requiresCss : Bool)
    (interp : String) : Json :=
  Json.obj [("update_type", Json.str t),
            ("target_pages", Json.arr (targets.map Json.str)),
            ("requires_css_update", Json.bool requiresCss),
            ("interpretation", Json.str interp)]

/-- The ultra-fallback of lines 643-651 (analyzer call itself failed, or
a fallback construction raised): update the first page only, or nothing
when no pages were supplied. -/
def ultraFallbackAnalysis (available : List String) : Json :=
  mkAnalysis "specific_pages"
    (match available with | [] => [] | a :: _ => [a])
    false "Updating page content"

/-- The keyword heuristic of lines 606-642, used when the analyzer's
output fails to parse as JSON.  In the both/ambiguous branch with no
matched page and no available page, `available_pages_list[0]` raises an
IndexError that the outer handler converts to the ultra-fallback. -/
def keywordFallbackAnalysis (available : List String) (req : String) : Json :=
  if hasGlobalKeyword req ∧ ¬hasPageName available req then
    mkAnalysis "global_css" [] true "Applying global styling changes"
  else if hasPageName available req ∧ ¬hasGlobalKeyword req then
    let ts := matchedPageNames available req
    mkAnalysis "specific_pages" ts false
      ("Updating content on specific pages: " ++ String.intercalate ", " ts)
  else
    match matchedPageNames available req, available with
    | [], [] => ultraFallbackAnalysis []
    | [], a :: _ => mkAnalysis "both" [a] true "Updating both styling and page content"
    | ts, _ => mkAnalysis "both" ts true "Updating both styling and page content"

/-- `global_css[:500] if global_css else ""`: the grounding sample. -/
def cssSample (gcss : Option String) : String :=
  match gcss with
  | some g => if g ≠ "" then pyTake g 500 else ""
  | none => ""

/-- Python truthiness of the optional global CSS. -/
def pyTruthyStrOpt (gcss : Option String) : Bool :=
  match gcss with
  | some g => g ≠ ""
  | none => false

/-- Step 1 of `forward` (lines 593-651): analyzer call, JSON parse,
keyword fallback on a parse failure, ultra-fallback on any other
failure. -/
def resolveAnalysis (env : UpdaterEnv) (available : List String)
    (gcss : Option String) (req : String) : Json :=
  match env.analyzerCall req (String.intercalate ", " available) (cssSample gcss) with
  | .error _ => ultraFallbackAnalysis available
  | .ok txt =>
    match env.jsonParse txt with
    | some a => a
    | none => keywordFallbackAnalysis available req

/-- `analysis.get(k)`: raises (AttributeError) when the parsed analysis
is not a dict. -/
def getAttr (analysis : Json) (k : String) : Except String (Option Json) :=
  match analysis with
  | Json.obj fs => Except.ok (fs.lookup k)
  | _ => Except.error "AttributeError: get"

/-- The throwaway HTML shell wrapped around the global CSS (lines
663-673). -/
def cssWrapperHtml (g : String) : String :=
  "<!DOCTYPE html>\n<html>\n<head>\n    <style>\n    " ++ g
    ++ "\n    </style>\n</head>\n<body>\n    <p>CSS Template</p>\n</body>\n</html>"

/-- The instruction sent with the CSS-only edit (line 679). -/
def cssEditRequest (req : String) : String :=
  "Update the CSS styling based on this request: " ++ req
    ++ ". Only modify the CSS, preserve the HTML structure."

/-- The global-CSS update step (lines 658-695): runs only when
`requires_css_update` is truthy AND the global CSS is truthy; the edited
shell's style blocks become the new global CSS, and both an extraction
miss and an editor failure keep the original CSS (never null it out)
without recording a change. -/
def applyGlobalCssUpdate (env : UpdaterEnv) (gcss : Option String)
    (req : String) (analysis : Json) :
    Except String (Option String × List String) :=
  match getAttr analysis "requires_css_update" with
  | .error e => Except.error e
  | .ok requiresRaw =>
    if ((requiresRaw.getD Json.null).truthy && pyTruthyStrOpt gcss) = true then
      match env.htmlEditor (cssWrapperHtml (gcss.getD "")) (gcss.getD "")
          (cssEditRequest req) with
      | .ok modified =>
        match styleFindAll modified with
        | [] => Except.ok (some (gcss.getD ""), [])
        | ms => Except.ok (some (pyStrip (String.intercalate "\n\n" ms)),
                           ["Updated global CSS styling"])
      | .error _ => Except.ok (some (gcss.getD ""), [])
    else Except.ok (none, ([] : List String))

/-- `page_data.get('css', global_css if global_css else '')`: the CSS
context for editing a page — the page's own `css` field whenever the
key is present (even when its value is the empty string); the global
CSS (or `''` when that is falsy) only when the key is absent. -/
def pageCssContext (pd : PageDict) (gcss : Option String) : String :=
  pd.cssField.getD (match gcss with
    | some g => if g ≠ "" then g else ""
    | none => "")

/-- Python iteration over `analysis.get("target_pages", [])`: lists
iterate their elements, strings their characters, dicts their keys;
scalars raise a TypeError that escapes `forward`. -/
def iterTargets : Json → Except String (List Json)
  | Json.arr l => Except.ok l
  | Json.str s => Except.ok (s.toList.map (fun c => Json.str (String.mk [c])))
  | Json.obj fs => Except.ok (fs.map (fun kv => Json.str kv.1))
  | _ => Except.error "TypeError: not iterable"

/-- The per-page update loop (lines 700-728): a target absent from the
page map is skipped with a warning, as is any non-string hashable
target; an unhashable target raises at the membership test; an editor
failure for one page is logged and skipped.  A successful edit always
stores the page in `updated_pages` — there is no comparison against the
original content — with CSS equal to the re-extracted style blocks, or
the editing context when extraction is empty. -/
def applyPageUpdates (env : UpdaterEnv) (pages : List (String × PageDict))
    (gcss : Option String) (req : String) :
    List Json → List (String × Page) × List String →
      Except String (List (String × Page) × List String)
  | [], acc => Except.ok acc
  | t :: ts, acc =>
    match t with
    | Json.str name =>
      match pages.lookup name with
      | none => applyPageUpdates env pages gcss req ts acc
      | some pd =>
        match env.htmlEditor (pd.htmlField.getD "") (pageCssContext pd gcss) req with
        | .ok modified =>
          applyPageUpdates env pages gcss req ts
            (assocSet acc.1 name
              ⟨(extractCssFromHtml modified).1,
               if (extractCssFromHtml modified).2 ≠ "" then (extractCssFromHtml modified).2
               else pageCssContext pd gcss⟩,
             acc.2 ++ ["Updated " ++ name ++ " page"])
        | .error _ => applyPageUpdates env pages gcss req ts acc
    | Json.arr _ => Except.error "TypeError: unhashable type: list"
    | Json.obj _ => Except.error "TypeError: unhashable type: dict"
    | _ => applyPageUpdates env pages gcss req ts acc

/-- The body of `WebsiteUpdater.forward` after the analysis is fixed
(lines 653-743): optionally update the global CSS, optionally update the
targeted pages, then aggregate.  The summary is "No changes were made.
Please check your request." exactly when no change was recorded; an
`error` result models an exception escaping `forward` (there is no
outer handler). -/
def forwardWithAnalysis (env : UpdaterEnv) (pages : List (String × PageDict))
    (gcss : Option String) (req : String) (analysis : Json) :
    Except String UpdateResult :=
  match applyGlobalCssUpdate env gcss req analysis with
  | .error e => Except.error e
  | .ok css =>
    match getAttr analysis "target_pages" with
    | .error e => Except.error e
    | .ok targetsRaw =>
      match getAttr analysis "update_type" with
      | .error e => Except.error e
      | .ok updType =>
        match
          (if ((targetsRaw.getD (Json.arr [])).truthy
              && (updType == some (Json.str "specific_pages")
                  || updType == some (Json.str "both"))) = true then
            match iterTargets (targetsRaw.getD (Json.arr [])) with
            | .error e => Except.error e
            | .ok ts => applyPageUpdates env pages gcss req ts ([], [])
          else Except.ok (([], []) : List (String × Page) × List String)) with
        | .error e => Except.error e
        | .ok pgs =>
          Except.ok ⟨pgs.1, css.1,
            (if (css.2 ++ pgs.2).isEmpty then
              "No changes were made. Please check your request."
             else "Successfully applied changes: "
               ++ String.intercalate ", " (css.2 ++ pgs.2)),
            analysis⟩

/-- `WebsiteUpdater.forward` (lines 568-743): classify the edit request,
then apply the scoped update. -/
def WebsiteUpdater.forward (env : UpdaterEnv) (pages : List (String × PageDict))
    (gcss : Option String) (req : String) : Except String UpdateResult :=
  forwardWithAnalysis env pages gcss req
    (resolveAnalysis env (pages.map Prod.fst) gcss req)

/-! ## Claim theorems: stage failure contract (C1) and image
acceptance (C3) -/

/-- The failure record the spec's transition contract describes:
terminal step and status, an error message present, progress pinned at
the given checkpoint. -/
def isFailedAt (st : WorkflowState) (p : Nat) : Prop :=
  st.current_step = "failed" ∧ st.status = "failed"
    ∧ st.error.isSome = true ∧ st.progress = p

/-- C1 (amended): all of planning, image description, image generation
and HTML generation either succeed (advancing step and checkpoint) or
return the terminal failed record with progress at the previous
checkpoint and an error message set — no exception escapes.  The
file-storage stage, however, never produces a failed state: whatever
happens it returns current_step "complete", status "completed" and
progress 100. -/
theorem stage_failure_containment
    (e1 : PlanningEnv) (e2 : ImageDescEnv) (e3 : ImageGenEnv) (e4 : HtmlGenEnv)
    (e5 : StorageEnv) (s1 s2 s3 s4 s5 : WorkflowState) :
    ((planning_node e1 s1).current_step = "image_description"
        ∧ (planning_node e1 s1).status = "in_progress"
        ∧ (planning_node e1 s1).progress = 25
      ∨ isFailedAt (planning_node e1 s1) 0)
  ∧ ((image_description_node e2 s2).current_step = "image_generation"
        ∧ (image_description_node e2 s2).status = s2.status
        ∧ (image_description_node e2 s2).progress = 40
      ∨ isFailedAt (image_description_node e2 s2) 25)
  ∧ ((image_generation_node e3 s3).current_step = "html_generation"
        ∧ (image_generation_node e3 s3).status = s3.status
        ∧ (image_generation_node e3 s3).progress = 65
      ∨ isFailedAt (image_generation_node e3 s3) 40)
  ∧ ((html_generation_node e4 s4).current_step = "file_storage"
        ∧ (html_generation_node e4 s4).status = "in_progress"
        ∧ (html_generation_node e4 s4).progress = 90
      ∨ isFailedAt (html_generation_node e4 s4) 65)
  ∧ ((file_storage_node e5 s5).current_step = "complete"
        ∧ (file_storage_node e5 s5).status = "completed"
        ∧ (file_storage_node e5 s5).progress = 100) := by
  refine ⟨?_, ?_, ?_, ?_, ?_⟩
  · unfold planning_node
    cases planningResult e1 s1 (templateInfo e1 s1).1 with
    | error e => exact Or.inr ⟨rfl, rfl, rfl, rfl⟩
    | ok p => exact Or.inl ⟨rfl, rfl, rfl⟩
  · unfold image_description_node
    cases buildImageDescriptions e2 s2 with
    | error e => exact Or.inr ⟨rfl, rfl, rfl, rfl⟩
    | ok d => exact Or.inl ⟨rfl, rfl, rfl⟩
  · unfold image_generation_node
    cases s3.image_descriptions with
    | none => exact Or.inr ⟨rfl, rfl, rfl, rfl⟩
    | some d => exact Or.inl ⟨rfl, rfl, rfl⟩
  · unfold html_generation_node
    cases buildPagesOutput e4 s4 with
    | error e => exact Or.inr ⟨rfl, rfl, rfl, rfl⟩
    | ok o => exact Or.inl ⟨rfl, rfl, rfl⟩
  · unfold file_storage_node
    cases storageAttempt e5 s5 with
    | error e => exact ⟨rfl, rfl, rfl⟩
    | ok fr => exact ⟨rfl, rfl, rfl⟩

/-- A state about to run file storage, with generated pages in hand. -/
def storageFailState : WorkflowState :=
  { description := "A cozy neighborhood bakery website", template := none,
    plan := none, plan_json := none, template_styling := none, css_theme := none,
    image_descriptions := none, image_urls := none,
    pages := some [("home", ⟨"<!DOCTYPE html><html></html>", ""⟩)],
    folder_path := none, saved_files := none,
    current_step := "file_storage", status := "in_progress", error := none,
    progress := 90, progress_message := "" }

/-- A file manager whose save call fails. -/
def failingStorageEnv : StorageEnv := ⟨fun _ _ _ _ _ _ => Except.error "disk full"⟩

/-- C1 counterexample: an unrecoverable failure inside the file_storage
stage body does NOT yield current_step "failed" / status "failed" —
the stage returns a completed state at progress 100 with the cause
demoted to a warning in `error`. -/
theorem file_storage_failure_reports_completed :
    (file_storage_node failingStorageEnv storageFailState).status = "completed"
  ∧ (file_storage_node failingStorageEnv storageFailState).current_step = "complete"
  ∧ (file_storage_node failingStorageEnv storageFailState).progress = 100
  ∧ (file_storage_node failingStorageEnv storageFailState).error
      = some "File storage warning: disk full" :=
  ⟨rfl, rfl, rfl, rfl⟩

/-- C3 (amended): the downloaded byte stream is accepted exactly when it
is non-empty and at most 10 MB; the magic-byte format detection does not
influence acceptance. -/
theorem image_accept_iff_size_checks (b : List Nat) :
    download_and_save_image b = Except.ok () ↔
      (b.length ≠ 0 ∧ b.length ≤ 10 * 1024 * 1024) := by
  unfold download_and_save_image
  by_cases h0 : b.length = 0
  · rw [if_pos h0]
    simp [h0]
  · rw [if_neg h0]
    by_cases h1 : b.length > 10 * 1024 * 1024
    · rw [if_pos h1]
      simp only [iff_iff_implies_and_implies]
      constructor
      · intro h; cases h
      · intro h; omega
    · rw [if_neg h1]
      cases detectImageFormat b <;> simp [h0] <;> omega

/-- C3 counterexample: a one-byte stream matches no raster-image
signature, yet it is accepted and saved rather than rejected. -/
theorem image_accept_unrecognized_signature :
    detectImageFormat [0] = none ∧ download_and_save_image [0] = Except.ok () :=
  ⟨rfl, rfl⟩

/-! ## Claim theorems: plan parsing and validation (C4, C5) -/

/-- C4: post-parse validation applies to every parse result — a direct
parse success is adopted verbatim (never replaced by the default plan),
and whenever the adopted plan fails validation (not a dict, no `pages`
list, or an empty `pages` list) the planning stage terminates the run as
failed with the plan field untouched; in particular the well-formed but
structurally empty plan object is a validation error, not a candidate
for the synthetic fallback. -/
theorem planning_validation_always_applied
    (env : PlanningEnv) (st : WorkflowState) (txt msg : String) (p : Json) :
    (env.jsonParse txt = some p → planParse env txt = p)
    ∧ (env.plannerCall st.description (templateInfo env st).1 = Except.ok txt →
        validatePlanStruct (planParse env txt) = Except.error msg →
          (planning_node env st).current_step = "failed"
        ∧ (planning_node env st).status = "failed"
        ∧ (planning_node env st).error = some ("Planning failed: " ++ msg)
        ∧ (planning_node env st).progress = 0
        ∧ (planning_node env st).plan = st.plan)
    ∧ validatePlanStruct (Json.obj [("pages", Json.arr [])])
        = Except.error "Plan must contain at least one page" := by
  refine ⟨?_, ?_, rfl⟩
  · intro h
    unfold planParse
    rw [h]
  · intro hc hv
    have hres : planningResult env st (templateInfo env st).1 = Except.error msg := by
      unfold planningResult
      rw [hc]
      simp only
      rw [hv]
    unfold planning_node
    rw [hres]
    exact ⟨rfl, rfl, rfl, rfl, rfl⟩

/-- Environment for the C4 witness: the planner emits a structurally
empty plan that parses directly. -/
def w4Env : PlanningEnv :=
  { templateAnalyzer := fun _ => Except.error "unused",
    normalizeWs := fun s => s,
    plannerCall := fun _ _ => Except.ok "E",
    jsonParse := fun s => if s = "E" then some (Json.obj [("pages", Json.arr [])]) else none,
    regexSearchPages := fun _ => none }

/-- Initial state for the C4 witness. -/
def w4State : WorkflowState :=
  { description := "A cozy neighborhood bakery website", template := none,
    plan := none, plan_json := none, template_styling := none, css_theme := none,
    image_descriptions := none, image_urls := none, pages := none,
    folder_path := none, saved_files := none,
    current_step := "planning", status := "in_progress", error := none,
    progress := 0, progress_message := "Starting website generation..." }

/-- C4 witness: the empty-`pages` plan parses directly, is adopted
as-is, and the run terminates failed with no plan stored. -/
theorem planning_validation_always_applied_witness :
    planParse w4Env "E" = Json.obj [("pages", Json.arr [])]
  ∧ (planning_node w4Env w4State).current_step = "failed"
  ∧ (planning_node w4Env w4State).status = "failed"
  ∧ (planning_node w4Env w4State).plan = none := by
  have h := planning_validation_always_applied w4Env w4State "E"
    "Plan must contain at least one page" (Json.obj [("pages", Json.arr [])])
  have h2 := h.2.1 rfl rfl
  exact ⟨h.1 rfl, h2.1, h2.2.1, h2.2.2.2.2.trans rfl⟩

/-- C5: whenever the verbatim parse, the code-block extraction and the
regex substring search all fail, the plan parser returns the synthetic
default plan (home/about/contact pages, the neutral styling block,
image_sections hero/features/testimonials) instead of failing. -/
theorem plan_parser_default_fallback (env : PlanningEnv) (txt : String)
    (h1 : env.jsonParse txt = none)
    (h2 : env.jsonParse (extractCodeBlock txt) = none)
    (h3 : ∀ m, env.regexSearchPages (extractCodeBlock txt) = some m →
            env.jsonParse m = none) :
    planParse env txt = defaultPlan := by
  unfold planParse
  rw [h1]
  simp only
  rw [h2]
  simp only
  cases hr : env.regexSearchPages (extractCodeBlock txt) with
  | none => rfl
  | some m =>
    simp only
    rw [h3 m hr]

/-- Environment for the C5 witness: nothing parses and the regex never
matches. -/
def w5Env : PlanningEnv :=
  { templateAnalyzer := fun _ => Except.error "unused",
    normalizeWs := fun s => s,
    plannerCall := fun _ _ => Except.ok "utter garbage, not JSON at all",
    jsonParse := fun _ => none,
    regexSearchPages := fun _ => none }

/-- C5 witness: syntactically invalid garbage yields the synthetic
default plan. -/
theorem plan_parser_default_fallback_witness :
    planParse w5Env "utter garbage, not JSON at all" = defaultPlan :=
  plan_parser_default_fallback w5Env "utter garbage, not JSON at all" rfl rfl
    (fun _ hm => Option.noConfusion hm)

/-! ## Claim theorems: image pipeline keys (C6) and happy-path
progress (C7) -/

/-- Building the URL map never changes the key sequence. -/
theorem sectionUrls_keys (env : ImageGenEnv) (descs : List (String × String)) :
    (sectionUrls env descs).map Prod.fst = descs.map Prod.fst := by
  unfold sectionUrls
  induction descs with
  | nil => rfl
  | cons a t ih => simp [ih]

/-- C6: whenever the image-description stage hands off to image
generation, the image-generation stage produces an `image_urls` map
whose keys are exactly `hero, features, testimonials` — the fixed
section list, independent of the plan and of how many individual
description or generation calls failed — and advances to
`html_generation`. -/
theorem image_urls_keys_fixed (e1 : ImageDescEnv) (e2 : ImageGenEnv)
    (st : WorkflowState)
    (h : (image_description_node e1 st).current_step = "image_generation") :
    ((image_generation_node e2 (image_description_node e1 st)).image_urls).map
        (List.map Prod.fst)
      = some ["hero", "features", "testimonials"]
  ∧ (image_generation_node e2 (image_description_node e1 st)).current_step
      = "html_generation" := by
  cases hd : buildImageDescriptions e1 st with
  | error e =>
    exfalso
    unfold image_description_node at h
    simp only [hd] at h
    exact absurd h (by decide)
  | ok descs =>
    have hkeys : descs.map Prod.fst = ["hero", "features", "testimonials"] := by
      unfold buildImageDescriptions at hd
      cases hpl : st.plan with
      | none =>
        simp only [hpl] at hd
        exact Except.noConfusion hd
      | some plan =>
        simp only [hpl] at hd
        cases hpg : pagesListOf plan with
        | error e =>
          simp only [hpg] at hd
          exact Except.noConfusion hd
        | ok pgs =>
          simp only [hpg] at hd
          cases hf1 : findPageForSection pgs "hero" with
          | error e =>
          simp only [hf1] at hd
          exact Except.noConfusion hd
          | ok p1 =>
            simp only [hf1] at hd
            cases hf2 : findPageForSection pgs "features" with
            | error e =>
          simp only [hf2] at hd
          exact Except.noConfusion hd
            | ok p2 =>
              simp only [hf2] at hd
              cases hf3 : findPageForSection pgs "testimonials" with
              | error e =>
          simp only [hf3] at hd
          exact Except.noConfusion hd
              | ok p3 =>
                simp only [hf3] at hd
                cases hd
                rfl
    have hnode : image_description_node e1 st
        = { st with image_descriptions := some descs,
                    current_step := "image_generation", progress := 40,
                    progress_message := "✓ Image descriptions ready for "
                      ++ toString descs.length ++ " sections" } := by
      unfold image_description_node
      rw [hd]
    rw [hnode]
    unfold image_generation_node
    exact ⟨by simp only [Option.map]; rw [sectionUrls_keys, hkeys], rfl⟩

/-- A description gateway that always fails (every section falls back). -/
def w6DescEnv : ImageDescEnv := ⟨fun _ _ _ _ => Except.error "rate limited"⟩

/-- An image gateway that always fails (every section falls back to the
static assets). -/
def w6GenEnv : ImageGenEnv := ⟨"http://b", fun _ _ _ _ => Except.error "quota"⟩

/-- A state that has reached the image stages. -/
def w6State : WorkflowState :=
  { description := "A cozy neighborhood bakery website", template := none,
    plan := some (Json.obj [("pages", Json.arr [])]), plan_json := none,
    template_styling := none, css_theme := none,
    image_descriptions := none, image_urls := none, pages := none,
    folder_path := none, saved_files := none,
    current_step := "image_description", status := "in_progress", error := none,
    progress := 25, progress_message := "" }

/-- C6 witness: with every per-section call failing, the URL map still
has exactly the three fixed keys. -/
theorem image_urls_keys_fixed_witness :
    ((image_generation_node w6GenEnv (image_description_node w6DescEnv w6State)).image_urls).map
        (List.map Prod.fst)
      = some ["hero", "features", "testimonials"]
  ∧ (image_generation_node w6GenEnv (image_description_node w6DescEnv w6State)).current_step
      = "html_generation" :=
  image_urls_keys_fixed w6DescEnv w6GenEnv w6State rfl

/-- C7: on the happy path (every stage hands off to the next), the
progress checkpoints are planning 25, image_description 40,
image_generation 65, html_generation 90, file_storage 100, and progress
never decreases from the initial state onward. -/
theorem happy_path_progress_checkpoints
    (e1 : PlanningEnv) (e2 : ImageDescEnv) (e3 : ImageGenEnv) (e4 : HtmlGenEnv)
    (e5 : StorageEnv) (s0 : WorkflowState)
    (h0 : s0.progress = 0)
    (h1 : (planning_node e1 s0).current_step = "image_description")
    (h2 : (image_description_node e2 (planning_node e1 s0)).current_step
            = "image_generation")
    (h3 : (image_generation_node e3 (image_description_node e2
            (planning_node e1 s0))).current_step = "html_generation")
    (h4 : (html_generation_node e4 (image_generation_node e3
            (image_description_node e2 (planning_node e1 s0)))).current_step
            = "file_storage") :
    (planning_node e1 s0).progress = 25
  ∧ (image_description_node e2 (planning_node e1 s0)).progress = 40
  ∧ (image_generation_node e3 (image_description_node e2
      (planning_node e1 s0))).progress = 65
  ∧ (html_generation_node e4 (image_generation_node e3 (image_description_node e2
      (planning_node e1 s0)))).progress = 90
  ∧ (file_storage_node e5 (html_generation_node e4 (image_generation_node e3
      (image_description_node e2 (planning_node e1 s0))))).progress = 100
  ∧ s0.progress ≤ (planning_node e1 s0).progress
  ∧ (planning_node e1 s0).progress
      ≤ (image_description_node e2 (planning_node e1 s0)).progress
  ∧ (image_description_node e2 (planning_node e1 s0)).progress
      ≤ (image_generation_node e3 (image_description_node e2
          (planning_node e1 s0))).progress
  ∧ (image_generation_node e3 (image_description_node e2
      (planning_node e1 s0))).progress
      ≤ (html_generation_node e4 (image_generation_node e3
          (image_description_node e2 (planning_node e1 s0)))).progress
  ∧ (html_generation_node e4 (image_generation_node e3 (image_description_node e2
      (planning_node e1 s0)))).progress
      ≤ (file_storage_node e5 (html_generation_node e4 (image_generation_node e3
          (image_description_node e2 (planning_node e1 s0))))).progress := by
  have q1 : (planning_node e1 s0).progress = 25 := by
    cases hp : planningResult e1 s0 (templateInfo e1 s0).1 with
    | error e =>
      unfold planning_node at h1
      simp only [hp] at h1
      exact absurd h1 (by decide)
    | ok p =>
      unfold planning_node
      rw [hp]
  have q2 : (image_description_node e2 (planning_node e1 s0)).progress = 40 := by
    cases hd : buildImageDescriptions e2 (planning_node e1 s0) with
    | error e =>
      unfold image_description_node at h2
      simp only [hd] at h2
      exact absurd h2 (by decide)
    | ok d =>
      unfold image_description_node
      rw [hd]
  have q3 : (image_generation_node e3 (image_description_node e2
      (planning_node e1 s0))).progress = 65 := by
    cases hu : (image_description_node e2 (planning_node e1 s0)).image_descriptions with
    | none =>
      unfold image_generation_node at h3
      simp only [hu] at h3
      exact absurd h3 (by decide)
    | some d =>
      unfold image_generation_node
      rw [hu]
  have q4 : (html_generation_node e4 (image_generation_node e3
      (image_description_node e2 (planning_node e1 s0)))).progress = 90 := by
    cases ho : buildPagesOutput e4 (image_generation_node e3
        (image_description_node e2 (planning_node e1 s0))) with
    | error e =>
      unfold html_generation_node at h4
      simp only [ho] at h4
      exact absurd h4 (by decide)
    | ok o =>
      unfold html_generation_node
      rw [ho]
  have q5 : (file_storage_node e5 (html_generation_node e4 (image_generation_node e3
      (image_description_node e2 (planning_node e1 s0))))).progress = 100 := by
    cases hs : storageAttempt e5 (html_generation_node e4 (image_generation_node e3
        (image_description_node e2 (planning_node e1 s0)))) with
    | error e =>
      unfold file_storage_node
      rw [hs]
    | ok fr =>
      unfold file_storage_node
      rw [hs]
  refine ⟨q1, q2, q3, q4, q5, ?_, ?_, ?_, ?_, ?_⟩
  · rw [h0, q1]; omega
  · rw [q1, q2]; omega
  · rw [q2, q3]; omega
  · rw [q3, q4]; omega
  · rw [q4, q5]; omega

/-- The plan returned by the happy-path planner witness. -/
def w7Plan : Json :=
  Json.obj [("pages", Json.arr [Json.obj [("name", Json.str "home")]])]

/-- Happy-path planning environment: the planner text parses directly
into a one-page plan. -/
def w7PlanningEnv : PlanningEnv :=
  { templateAnalyzer := fun _ => Except.error "unused",
    normalizeWs := fun s => s,
    plannerCall := fun _ _ => Except.ok "PLAN",
    jsonParse := fun s => if s = "PLAN" then some w7Plan else none,
    regexSearchPages := fun _ => none }

/-- Happy-path description gateway. -/
def w7DescEnv : ImageDescEnv := ⟨fun _ _ _ _ => Except.ok "a warm bakery interior"⟩

/-- Happy-path image gateway. -/
def w7GenEnv : ImageGenEnv := ⟨"http://b", fun _ _ _ _ => Except.ok "/uploads/x.png"⟩

/-- A generated page passing the length and doctype checks. -/
def w7Html : String :=
  "<!DOCTYPE html><html><head><title>T</title></head><body><p>Welcome to the cozy neighborhood bakery, the best bread in town.</p></body></html>"

/-- Happy-path page generator. -/
def w7HtmlEnv : HtmlGenEnv := ⟨fun _ _ _ _ => Except.ok w7Html⟩

/-- Happy-path file manager. -/
def w7StorageEnv : StorageEnv :=
  ⟨fun _ _ _ _ _ _ => Except.ok ("sites/bakery", [("home", "sites/bakery/home.html")])⟩

/-- The initial workflow state built by the generate endpoint. -/
def w7State0 : WorkflowState :=
  { description := "A cozy neighborhood bakery website", template := none,
    plan := none, plan_json := none, template_styling := none, css_theme := none,
    image_descriptions := none, image_urls := none, pages := none,
    folder_path := none, saved_files := none,
    current_step := "planning", status := "in_progress", error := none,
    progress := 0, progress_message := "Starting website generation..." }

/-- C7 witness: a full happy-path run hits the checkpoints
25, 40, 65, 90, 100 monotonically. -/
theorem happy_path_progress_checkpoints_witness :
    (planning_node w7PlanningEnv w7State0).progress = 25
  ∧ (image_description_node w7DescEnv (planning_node w7PlanningEnv w7State0)).progress = 40
  ∧ (image_generation_node w7GenEnv (image_description_node w7DescEnv
      (planning_node w7PlanningEnv w7State0))).progress = 65
  ∧ (html_generation_node w7HtmlEnv (image_generation_node w7GenEnv
      (image_description_node w7DescEnv (planning_node w7PlanningEnv w7State0)))).progress = 90
  ∧ (file_storage_node w7StorageEnv (html_generation_node w7HtmlEnv
      (image_generation_node w7GenEnv (image_description_node w7DescEnv
        (planning_node w7PlanningEnv w7State0))))).progress = 100
  ∧ w7State0.progress ≤ (planning_node w7PlanningEnv w7State0).progress
  ∧ (planning_node w7PlanningEnv w7State0).progress
      ≤ (image_description_node w7DescEnv (planning_node w7PlanningEnv w7State0)).progress
  ∧ (image_description_node w7DescEnv (planning_node w7PlanningEnv w7State0)).progress
      ≤ (image_generation_node w7GenEnv (image_description_node w7DescEnv
          (planning_node w7PlanningEnv w7State0))).progress
  ∧ (image_generation_node w7GenEnv (image_description_node w7DescEnv
      (planning_node w7PlanningEnv w7State0))).progress
      ≤ (html_generation_node w7HtmlEnv (image_generation_node w7GenEnv
          (image_description_node w7DescEnv (planning_node w7PlanningEnv w7State0)))).progress
  ∧ (html_generation_node w7HtmlEnv (image_generation_node w7GenEnv
      (image_description_node w7DescEnv (planning_node w7PlanningEnv w7State0)))).progress
      ≤ (file_storage_node w7StorageEnv (html_generation_node w7HtmlEnv
          (image_generation_node w7GenEnv (image_description_node w7DescEnv
            (planning_node w7PlanningEnv w7State0))))).progress :=
  happy_path_progress_checkpoints w7PlanningEnv w7DescEnv w7GenEnv w7HtmlEnv
    w7StorageEnv w7State0 rfl rfl rfl rfl rfl

/-! ## Claim theorems: update classifier fallback (C8) and the
global-CSS guard (C10) -/

/-- When no page name occurs in the request, the matched-page list is
empty. -/
theorem matchedPageNames_nil (av : List String) (req : String)
    (h : hasPageName av req = false) : matchedPageNames av req = [] := by
  unfold hasPageName at h
  unfold matchedPageNames
  simp only [List.any_eq_false] at h
  simp only [List.filter_eq_nil_iff]
  exact h

/-- C8: when the analyzer's output fails to parse as JSON, the keyword
fallback classifies the request: styling keywords and no page name give
`global_css` with no targets; a page name and no styling keyword give
`specific_pages` targeting the matched pages; both signals give `both`;
neither signal gives the first available page as the target. -/
theorem update_keyword_fallback_classification
    (env : UpdaterEnv) (pages : List (String × PageDict)) (gcss : Option String)
    (req txt : String)
    (hcall : env.analyzerCall req (String.intercalate ", " (pages.map Prod.fst))
        (cssSample gcss) = Except.ok txt)
    (hparse : env.jsonParse txt = none) :
    resolveAnalysis env (pages.map Prod.fst) gcss req
      = keywordFallbackAnalysis (pages.map Prod.fst) req
  ∧ (hasGlobalKeyword req = true → hasPageName (pages.map Prod.fst) req = false →
      keywordFallbackAnalysis (pages.map Prod.fst) req
        = mkAnalysis "global_css" [] true "Applying global styling changes")
  ∧ (hasPageName (pages.map Prod.fst) req = true → hasGlobalKeyword req = false →
      keywordFallbackAnalysis (pages.map Prod.fst) req
        = mkAnalysis "specific_pages" (matchedPageNames (pages.map Prod.fst) req) false
            ("Updating content on specific pages: "
              ++ String.intercalate ", " (matchedPageNames (pages.map Prod.fst) req)))
  ∧ (hasGlobalKeyword req = true → hasPageName (pages.map Prod.fst) req = true →
      (keywordFallbackAnalysis (pages.map Prod.fst) req).lookupKey "update_type"
        = some (Json.str "both"))
  ∧ (hasGlobalKeyword req = false → hasPageName (pages.map Prod.fst) req = false →
      ∀ a rest, pages.map Prod.fst = a :: rest →
        keywordFallbackAnalysis (pages.map Prod.fst) req
          = mkAnalysis "both" [a] true "Updating both styling and page content") := by
  refine ⟨?_, ?_, ?_, ?_, ?_⟩
  · unfold resolveAnalysis
    rw [hcall]
    simp only
    rw [hparse]
  · intro hg hp
    unfold keywordFallbackAnalysis
    simp [hg, hp]
  · intro hp hg
    unfold keywordFallbackAnalysis
    simp [hg, hp]
  · intro hg hp
    unfold keywordFallbackAnalysis
    simp only [hg, hp]
    simp only [Bool.true_eq_false, not_true, and_false, not_false_eq_true, and_true,
      if_false, ite_false, if_true, ite_true, false_and, true_and, if_neg, not_true_eq_false]
    cases hm : matchedPageNames (pages.map Prod.fst) req with
    | nil =>
      cases hav : pages.map Prod.fst with
      | nil =>
        exfalso
        unfold hasPageName at hp
        rw [hav] at hp
        simp at hp
      | cons a rest =>
        simp only [hm, hav]
        rfl
    | cons t ts =>
      cases hav : pages.map Prod.fst with
      | nil =>
        simp only [hm, hav]
        rfl
      | cons a rest =>
        simp only [hm, hav]
        rfl
  · intro hg hp a rest hav
    have hm := matchedPageNames_nil _ _ hp
    unfold keywordFallbackAnalysis
    rw [hav] at hm hp ⊢
    simp [hg, hp, hm]

/-- Pages supplied to the updater witnesses. -/
def w8Pages : List (String × PageDict) := [("home", ⟨some "<p>h</p>", some ""⟩)]

/-- An analyzer whose output is not JSON. -/
def w8Env : UpdaterEnv :=
  { analyzerCall := fun _ _ _ => Except.ok "garbage",
    jsonParse := fun _ => none,
    htmlEditor := fun h _ _ => Except.ok h }

/-- C8 witness: "change all colors to blue" (styling keyword, no page
name) classifies as global_css with no targets; "update hero text on
home page" (page name, no styling keyword) classifies as specific_pages
targeting home. -/
theorem update_keyword_fallback_classification_witness :
    resolveAnalysis w8Env ["home"] none "change all colors to blue"
      = keywordFallbackAnalysis ["home"] "change all colors to blue"
  ∧ keywordFallbackAnalysis ["home"] "change all colors to blue"
      = mkAnalysis "global_css" [] true "Applying global styling changes"
  ∧ keywordFallbackAnalysis ["home"] "update hero text on home page"
      = mkAnalysis "specific_pages" ["home"] false
          "Updating content on specific pages: home" := by
  have h1 := update_keyword_fallback_classification w8Env w8Pages none
    "change all colors to blue" "garbage" rfl rfl
  have h2 := update_keyword_fallback_classification w8Env w8Pages none
    "update hero text on home page" "garbage" rfl rfl
  refine ⟨h1.1, h1.2.1 rfl rfl, ?_⟩
  exact h2.2.2.1 rfl rfl

/-- On a falsy global CSS the guarded branch always returns
`(None, [])`. -/
theorem applyGlobalCssUpdate_none (env : UpdaterEnv) (gcss : Option String)
    (req : String) (a : Json) (x : Option String × List String)
    (hfalse : pyTruthyStrOpt gcss = false)
    (h : applyGlobalCssUpdate env gcss req a = Except.ok x) : x.1 = none := by
  unfold applyGlobalCssUpdate at h
  cases hga : getAttr a "requires_css_update" with
  | error e =>
    rw [hga] at h
    exact Except.noConfusion h
  | ok rr =>
    simp only [hga] at h
    rw [hfalse, Bool.and_false] at h
    rw [if_neg (by decide)] at h
    cases h
    rfl

/-- C10: when the analysis requests a CSS update but the supplied global
CSS is absent or empty, the global-CSS update step is skipped and the
returned `updated_global_css` stays `None`. -/
theorem css_update_skipped_without_global_css
    (env : UpdaterEnv) (pages : List (String × PageDict)) (gcss : Option String)
    (req : String) (r : UpdateResult)
    (hg : gcss = none ∨ gcss = some "")
    (hreq : (((resolveAnalysis env (pages.map Prod.fst) gcss req).lookupKey
        "requires_css_update").getD Json.null).truthy = true)
    (hok : WebsiteUpdater.forward env pages gcss req = Except.ok r) :
    r.updated_global_css = none := by
  have hfalse : pyTruthyStrOpt gcss = false := by
    rcases hg with h | h <;> subst h <;> decide
  unfold WebsiteUpdater.forward at hok
  unfold forwardWithAnalysis at hok
  cases hc : applyGlobalCssUpdate env gcss req
      (resolveAnalysis env (pages.map Prod.fst) gcss req) with
  | error e =>
    rw [hc] at hok
    exact Except.noConfusion hok
  | ok css =>
    have hnone : css.1 = none := applyGlobalCssUpdate_none _ _ _ _ _ hfalse hc
    simp only [hc] at hok
    cases ht : getAttr (resolveAnalysis env (pages.map Prod.fst) gcss req)
        "target_pages" with
    | error e =>
      rw [ht] at hok
      exact Except.noConfusion hok
    | ok targetsRaw =>
      simp only [ht] at hok
      cases hu : getAttr (resolveAnalysis env (pages.map Prod.fst) gcss req)
          "update_type" with
      | error e =>
        rw [hu] at hok
        exact Except.noConfusion hok
      | ok updType =>
        simp only [hu] at hok
        cases hi : (if ((targetsRaw.getD (Json.arr [])).truthy
            && (updType == some (Json.str "specific_pages")
                || updType == some (Json.str "both"))) = true then
              match iterTargets (targetsRaw.getD (Json.arr [])) with
              | .error e => Except.error e
              | .ok ts => applyPageUpdates env pages gcss req ts ([], [])
            else Except.ok (([], []) : List (String × Page) × List String)) with
        | error e =>
          rw [hi] at hok
          exact Except.noConfusion hok
        | ok pgs =>
          simp only [hi] at hok
          cases hok
          exact hnone

/-- Analyzer environment for the C10 witness: a parsed analysis that
requests a CSS update with no target pages. -/
def w10Env : UpdaterEnv :=
  { analyzerCall := fun _ _ _ => Except.ok "A",
    jsonParse := fun s => if s = "A" then some (mkAnalysis "global_css" [] true "x") else none,
    htmlEditor := fun _ _ _ => Except.ok "<style>new</style>" }

/-- The result of the C10 witness run. -/
def w10Result : UpdateResult :=
  ⟨[], none, "No changes were made. Please check your request.",
   mkAnalysis "global_css" [] true "x"⟩

/-- C10 witness: a requested CSS update with no global CSS supplied
leaves `updated_global_css = None` and raises no error. -/
theorem css_update_skipped_without_global_css_witness :
    WebsiteUpdater.forward w10Env w8Pages none "restyle" = Except.ok w10Result
  ∧ w10Result.updated_global_css = none :=
  ⟨rfl, css_update_skipped_without_global_css w10Env w8Pages none "restyle"
      w10Result (Or.inl rfl) rfl rfl⟩

/-! ## Claim theorems: the update delta (C2) and the page CSS
context (C9) -/

/-- Evaluating the page loop on a single present target whose edit
succeeds: the page is stored (no change detection) with the
extracted-or-context CSS, and one change is recorded. -/
theorem applyPageUpdates_single_hit (env : UpdaterEnv)
    (pages : List (String × PageDict)) (gcss : Option String)
    (req p : String) (pd : PageDict) (m : String)
    (hpd : pages.lookup p = some pd)
    (hed : env.htmlEditor (pd.htmlField.getD "") (pageCssContext pd gcss) req
            = Except.ok m) :
    applyPageUpdates env pages gcss req [Json.str p] ([], [])
      = Except.ok ([(p, ⟨(extractCssFromHtml m).1,
          if (extractCssFromHtml m).2 ≠ "" then (extractCssFromHtml m).2
          else pageCssContext pd gcss⟩)],
         ["Updated " ++ p ++ " page"]) := by
  simp only [applyPageUpdates, hpd, hed]
  rfl

/-- Evaluating the page loop on a single absent target: the target is
skipped with a warning and nothing is recorded. -/
theorem applyPageUpdates_single_miss (env : UpdaterEnv)
    (pages : List (String × PageDict)) (gcss : Option String)
    (req p : String) (hpd : pages.lookup p = none) :
    applyPageUpdates env pages gcss req [Json.str p] ([], [])
      = Except.ok ([], []) := by
  simp only [applyPageUpdates, hpd]

/-- The applier on a `specific_pages` analysis with a single target and
no CSS update: the result is fully determined by whether the target
exists and whether its edit succeeds. -/
theorem forward_single_target (env : UpdaterEnv)
    (pages : List (String × PageDict)) (gcss : Option String)
    (req p interp : String) :
    (∀ pd m, pages.lookup p = some pd →
      env.htmlEditor (pd.htmlField.getD "") (pageCssContext pd gcss) req
          = Except.ok m →
      forwardWithAnalysis env pages gcss req
          (mkAnalysis "specific_pages" [p] false interp)
        = Except.ok ⟨[(p, ⟨(extractCssFromHtml m).1,
            if (extractCssFromHtml m).2 ≠ "" then (extractCssFromHtml m).2
            else pageCssContext pd gcss⟩)],
          none, "Successfully applied changes: " ++ ("Updated " ++ p ++ " page"),
          mkAnalysis "specific_pages" [p] false interp⟩)
  ∧ (pages.lookup p = none →
      forwardWithAnalysis env pages gcss req
          (mkAnalysis "specific_pages" [p] false interp)
        = Except.ok ⟨[], none, "No changes were made. Please check your request.",
          mkAnalysis "specific_pages" [p] false interp⟩) := by
  have hstep : forwardWithAnalysis env pages gcss req
      (mkAnalysis "specific_pages" [p] false interp)
        = (match applyPageUpdates env pages gcss req [Json.str p] ([], []) with
           | Except.error e => Except.error e
           | Except.ok pgs =>
             Except.ok ⟨pgs.1, none,
               (if pgs.2.isEmpty then "No changes were made. Please check your request."
                else "Successfully applied changes: " ++ String.intercalate ", " pgs.2),
               mkAnalysis "specific_pages" [p] false interp⟩) := rfl
  constructor
  · intro pd m hpd hed
    rw [hstep, applyPageUpdates_single_hit env pages gcss req p pd m hpd hed]
    rfl
  · intro hpd
    rw [hstep, applyPageUpdates_single_miss env pages gcss req p hpd]
    rfl

/-- C2 (amended): the applier performs no change detection — every
target page whose edit call succeeds is stored in `updated_pages`
whether or not its content differs from the input — and when no update
was applied at all (absent target, here) the result is an empty map with
the summary "No changes were made. Please check your request.", not an
error. -/
theorem update_delta_tracks_successful_edits
    (env : UpdaterEnv) (pages : List (String × PageDict)) (gcss : Option String)
    (req p interp txt : String)
    (hcall : env.analyzerCall req (String.intercalate ", " (pages.map Prod.fst))
        (cssSample gcss) = Except.ok txt)
    (hparse : env.jsonParse txt = some (mkAnalysis "specific_pages" [p] false interp)) :
    (∀ pd m, pages.lookup p = some pd →
       env.htmlEditor (pd.htmlField.getD "") (pageCssContext pd gcss) req
           = Except.ok m →
       WebsiteUpdater.forward env pages gcss req
         = Except.ok ⟨[(p, ⟨(extractCssFromHtml m).1,
              if (extractCssFromHtml m).2 ≠ "" then (extractCssFromHtml m).2
              else pageCssContext pd gcss⟩)],
             none, "Successfully applied changes: " ++ ("Updated " ++ p ++ " page"),
             mkAnalysis "specific_pages" [p] false interp⟩)
  ∧ (pages.lookup p = none →
       WebsiteUpdater.forward env pages gcss req
         = Except.ok ⟨[], none, "No changes were made. Please check your request.",
             mkAnalysis "specific_pages" [p] false interp⟩) := by
  have hres : resolveAnalysis env (pages.map Prod.fst) gcss req
      = mkAnalysis "specific_pages" [p] false interp := by
    unfold resolveAnalysis
    rw [hcall]
    simp only
    rw [hparse]
  constructor
  · intro pd m hpd hed
    unfold WebsiteUpdater.forward
    rw [hres]
    exact (forward_single_target env pages gcss req p interp).1 pd m hpd hed
  · intro hpd
    unfold WebsiteUpdater.forward
    rw [hres]
    exact (forward_single_target env pages gcss req p interp).2 hpd

/-- Updater environment whose editor is the identity (an edit producing
no detectable change) targeting the existing page. -/
def c2wEnv : UpdaterEnv :=
  { analyzerCall := fun _ _ _ => Except.ok "A",
    jsonParse := fun s =>
      if s = "A" then some (mkAnalysis "specific_pages" ["home"] false "x") else none,
    htmlEditor := fun h _ _ => Except.ok h }

/-- Same but targeting a page absent from the supplied map. -/
def c2wAbsentEnv : UpdaterEnv :=
  { analyzerCall := fun _ _ _ => Except.ok "A",
    jsonParse := fun s =>
      if s = "A" then some (mkAnalysis "specific_pages" ["away"] false "x") else none,
    htmlEditor := fun h _ _ => Except.ok h }

/-- The page map for the C2 witness and counterexample. -/
def c2wPages : List (String × PageDict) := [("home", ⟨some "<p>hi</p>", some ""⟩)]

/-- C2 witness: the identity edit stores the page in the delta; the
absent target yields an empty delta with the no-changes summary. -/
theorem update_delta_tracks_successful_edits_witness :
    WebsiteUpdater.forward c2wEnv c2wPages (some "") "make it better"
      = Except.ok ⟨[("home", ⟨"<p>hi</p>", ""⟩)], none,
          "Successfully applied changes: Updated home page",
          mkAnalysis "specific_pages" ["home"] false "x"⟩
  ∧ WebsiteUpdater.forward c2wAbsentEnv c2wPages (some "") "make it better"
      = Except.ok ⟨[], none, "No changes were made. Please check your request.",
          mkAnalysis "specific_pages" ["away"] false "x"⟩ := by
  constructor
  · exact (update_delta_tracks_successful_edits c2wEnv c2wPages (some "")
      "make it better" "home" "x" "A" rfl rfl).1
      ⟨some "<p>hi</p>", some ""⟩ "<p>hi</p>" rfl rfl
  · exact (update_delta_tracks_successful_edits c2wAbsentEnv c2wPages (some "")
      "make it better" "away" "x" "A" rfl rfl).2 rfl

/-- Analyzer and identity editor for the C2 counterexample. -/
def c2cEnv : UpdaterEnv :=
  { analyzerCall := fun _ _ _ => Except.ok "A",
    jsonParse := fun s =>
      if s = "A" then some (mkAnalysis "specific_pages" ["home"] false "x") else none,
    htmlEditor := fun h _ _ => Except.ok h }

/-- C2 counterexample: an edit request producing no detectable change
(the editor returns the page verbatim) does NOT yield an empty
`updated_pages` map — the unchanged page is present in the delta and the
summary reports an applied update. -/
theorem update_unchanged_page_in_delta :
    WebsiteUpdater.forward c2cEnv c2wPages (some "") "make it better"
      = Except.ok ⟨[("home", ⟨"<p>hi</p>", ""⟩)], none,
          "Successfully applied changes: Updated home page",
          mkAnalysis "specific_pages" ["home"] false "x"⟩
  ∧ c2wPages.lookup "home" = some ⟨some "<p>hi</p>", some ""⟩ :=
  ⟨rfl, rfl⟩

/-- C9 (amended): when the applier edits a page, the editing-context CSS
is the page's own `css` field whenever that field is present — even when
it is the empty string — and the global CSS (or `""` when the global CSS
is falsy) only when the field is absent; the CSS stored for every
updated page is never null: it is the newly extracted CSS when
non-empty, otherwise the context CSS. -/
theorem update_page_css_context
    (env : UpdaterEnv) (pages : List (String × PageDict)) (gcss : Option String)
    (req p interp txt : String) (pd : PageDict) (m : String)
    (hcall : env.analyzerCall req (String.intercalate ", " (pages.map Prod.fst))
        (cssSample gcss) = Except.ok txt)
    (hparse : env.jsonParse txt = some (mkAnalysis "specific_pages" [p] false interp))
    (hpd : pages.lookup p = some pd)
    (hed : env.htmlEditor (pd.htmlField.getD "") (pageCssContext pd gcss) req
        = Except.ok m) :
    WebsiteUpdater.forward env pages gcss req
      = Except.ok ⟨[(p, ⟨(extractCssFromHtml m).1,
          if (extractCssFromHtml m).2 ≠ "" then (extractCssFromHtml m).2
          else pageCssContext pd gcss⟩)], none,
          "Successfully applied changes: " ++ ("Updated " ++ p ++ " page"),
          mkAnalysis "specific_pages" [p] false interp⟩
  ∧ (∀ c, pd.cssField = some c → pageCssContext pd gcss = c)
  ∧ (pd.cssField = none →
      pageCssContext pd gcss = (if pyTruthyStrOpt gcss then gcss.getD "" else "")) := by
  refine ⟨?_, ?_, ?_⟩
  · have hres : resolveAnalysis env (pages.map Prod.fst) gcss req
        = mkAnalysis "specific_pages" [p] false interp := by
      unfold resolveAnalysis
      rw [hcall]
      simp only
      rw [hparse]
    unfold WebsiteUpdater.forward
    rw [hres]
    exact (forward_single_target env pages gcss req p interp).1 pd m hpd hed
  · intro c hc
    unfold pageCssContext
    rw [hc]
    rfl
  · intro hc
    unfold pageCssContext
    rw [hc]
    cases gcss with
    | none => rfl
    | some g =>
      by_cases hg : g = ""
      · subst hg
        rfl
      · simp [pyTruthyStrOpt, hg]

/-- Analyzer plus an editor that echoes its CSS context into a style
block, so the result reveals which context was passed. -/
def c9cEnv : UpdaterEnv :=
  { analyzerCall := fun _ _ _ => Except.ok "A",
    jsonParse := fun s =>
      if s = "A" then some (mkAnalysis "specific_pages" ["home"] false "x") else none,
    htmlEditor := fun _ c _ => Except.ok ("<style>" ++ c ++ "</style><p>page</p>") }

/-- A page whose `css` field is present but empty. -/
def c9cPages : List (String × PageDict) := [("home", ⟨some "<p>orig</p>", some ""⟩)]

/-- C9 counterexample: editing a page whose own CSS is empty does NOT
inherit the global CSS — the editor (which echoes its context into the
output style block) received the empty string, so the stored CSS is ""
and not the non-empty global stylesheet. -/
theorem update_empty_css_not_inheriting_global :
    WebsiteUpdater.forward c9cEnv c9cPages (some "body x") "edit home"
      = Except.ok ⟨[("home", ⟨"<p>page</p>", ""⟩)], none,
          "Successfully applied changes: Updated home page",
          mkAnalysis "specific_pages" ["home"] false "x"⟩
  ∧ ("" : String) ≠ "body x" :=
  ⟨rfl, by decide⟩

/-- C9 witness: a page with no `css` field inherits the truthy global
CSS as its context, and the stored CSS falls back to that context when
extraction is empty. -/
theorem update_page_css_context_witness :
    WebsiteUpdater.forward c9cEnv [("home", ⟨some "<p>o</p>", none⟩)] (some "body x") "edit home"
      = Except.ok ⟨[("home", ⟨"<p>page</p>", "body x"⟩)], none,
          "Successfully applied changes: Updated home page",
          mkAnalysis "specific_pages" ["home"] false "x"⟩
  ∧ pageCssContext ⟨some "<p>o</p>", none⟩ (some "body x") = "body x" := by
  have h := update_page_css_context c9cEnv [("home", ⟨some "<p>o</p>", none⟩)]
    (some "body x") "edit home" "home" "x" "A" ⟨some "<p>o</p>", none⟩
    "<style>body x</style><p>page</p>" rfl rfl rfl rfl
  exact ⟨h.1, (h.2.2 rfl).trans rfl⟩
